import Mathlib

set_option maxRecDepth 100000

/-!
Verification of the wellbeing backend (Flask application: src/models.py,
src/api/auth.py, src/api/user.py) through a shallow embedding in Lean.
Pure functions of the source become Lean functions; the database session
becomes an explicit record of lists that handlers thread through; Python
falsy checks on JSON fields become explicit emptiness and zero tests.
External libraries absent from the source tree (bcrypt, PyJWT) are
modelled from the specification, in definitions whose doc comments say so.
-/

/-! ## Bit-string codec

Modelled from the spec: PyJWT serializes the signed payload to a compact
token string.  The serialization itself is library code that is not part
of the repository, so it is idealized here as an injective, executable
encoding: each numeric field is written as a little-endian string of the
characters 0 and 1, and the four fields are joined with the separator
character, mirroring the dot-separated JWT wire format. -/

def bitChar (b : Bool) : Char := if b then '1' else '0'

def bitsToNat : List Bool → Nat
  | [] => 0
  | b :: bs => (if b then 1 else 0) + 2 * bitsToNat bs

def natToBitsAux : Nat → Nat → List Bool
  | 0, _ => []
  | fuel + 1, n => if n = 0 then [] else (n % 2 == 1) :: natToBitsAux fuel (n / 2)

def natToBits (n : Nat) : List Bool := natToBitsAux n n

lemma bitsToNat_natToBitsAux : ∀ fuel n, n ≤ fuel → bitsToNat (natToBitsAux fuel n) = n := by
  intro fuel
  induction fuel with
  | zero =>
    intro n h
    have : n = 0 := Nat.le_zero.mp h
    simp [this, natToBitsAux, bitsToNat]
  | succ f ih =>
    intro n h
    by_cases hn : n = 0
    · simp [hn, natToBitsAux, bitsToNat]
    · have hdiv : n / 2 ≤ f := by
        have : n / 2 < n := Nat.div_lt_self (Nat.pos_of_ne_zero hn) (by omega)
        omega
      simp only [natToBitsAux, hn, if_false, bitsToNat, ih (n / 2) hdiv]
      rcases Nat.mod_two_eq_zero_or_one n with h2 | h2 <;> simp [h2] <;> omega

lemma bitsToNat_natToBits (n : Nat) : bitsToNat (natToBits n) = n :=
  bitsToNat_natToBitsAux n n (Nat.le_refl n)

def natBitString (n : Nat) : String := String.mk ((natToBits n).map bitChar)

def parseBits : List Char → Option (List Bool)
  | [] => some []
  | c :: rest =>
    if c == '0' then (parseBits rest).map (fun l => false :: l)
    else if c == '1' then (parseBits rest).map (fun l => true :: l)
    else none

def parseBinNat (s : String) : Option Nat := (parseBits s.data).map bitsToNat

lemma parseBits_map_bitChar (bs : List Bool) : parseBits (bs.map bitChar) = some bs := by
  induction bs with
  | nil => rfl
  | cons b rest ih => cases b <;> simp [parseBits, bitChar, ih]

lemma data_mk (l : List Char) : (String.mk l).data = l := rfl

lemma parseBinNat_natBitString (n : Nat) : parseBinNat (natBitString n) = some n := by
  simp [parseBinNat, natBitString, data_mk, parseBits_map_bitChar, bitsToNat_natToBits]

lemma mem_natBitString_data {c : Char} {n : Nat} (h : c ∈ (natBitString n).data) :
    c = '0' ∨ c = '1' := by
  simp only [natBitString, data_mk, List.mem_map] at h
  obtain ⟨b, _, rfl⟩ := h
  cases b with
  | false => exact Or.inl rfl
  | true => exact Or.inr rfl

/-! ## Python string helpers

`pyStartsWith s pre` mirrors the Python call `s.startswith(pre)` and
`pySplit sep s` mirrors `s.split(sep)` with an explicit one-character
separator (consecutive separators produce empty fields, as in Python). -/

def pyStartsWith (s pre : String) : Bool := pre.data.isPrefixOf s.data

def splitListAux (sep : Char) : List Char → List Char → List (List Char)
  | [], acc => [acc.reverse]
  | c :: cs, acc =>
    if c == sep then acc.reverse :: splitListAux sep cs []
    else splitListAux sep cs (c :: acc)

def pySplit (sep : Char) (s : String) : List String :=
  (splitListAux sep s.data []).map String.mk

lemma splitListAux_no_sep (sep : Char) (cs : List Char) :
    ∀ acc, (∀ c ∈ cs, ¬(c == sep)) → splitListAux sep cs acc = [acc.reverse ++ cs] := by
  induction cs with
  | nil => intro acc _; simp [splitListAux]
  | cons c rest ih =>
    intro acc h
    have hc : (c == sep) = false := by
      simpa using h c (List.mem_cons_self c rest)
    simp only [splitListAux, hc, Bool.false_eq_true, if_false]
    rw [ih (c :: acc) (fun x hx => h x (List.mem_cons_of_mem c hx))]
    simp

lemma splitListAux_sep_append (sep : Char) (xs : List Char) :
    ∀ acc rest, (∀ c ∈ xs, ¬(c == sep)) →
      splitListAux sep (xs ++ sep :: rest) acc =
        (acc.reverse ++ xs) :: splitListAux sep rest [] := by
  induction xs with
  | nil =>
    intro acc rest _
    simp [splitListAux]
  | cons x xs ih =>
    intro acc rest h
    have hx : (x == sep) = false := by
      simpa using h x (List.mem_cons_self x xs)
    simp only [List.cons_append, splitListAux, hx, Bool.false_eq_true, if_false, List.append_eq]
    rw [ih (x :: acc) rest (fun c hc => h c (List.mem_cons_of_mem x hc))]
    simp

lemma data_append (s t : String) : (s ++ t).data = s.data ++ t.data := rfl

lemma mk_data (s : String) : String.mk s.data = s := rfl

/-! ## Credential Manager (src/models.py, User.hash_password / User.check_password)

Modelled from the spec: the bcrypt primitives `hashpw`, `gensalt` and
`checkpw` are library code that is not part of the repository.  Per the
spec, `hash` produces a salted one-way hash with the salt embedded in the
output, and `verify` recomputes using the embedded salt and compares.
The key derivation is idealized as a collision-free executable function
of the salt and the plaintext. -/

structure BcryptHash where
  salt : String
  digest : String
deriving Repr, DecidableEq

/-- Modelled from the spec: the bcrypt key derivation, idealized as an
injective pairing of salt and plaintext. -/
def bcryptKDF (salt pw : String) : String := salt ++ ":" ++ pw

/-- Embeds `User.hash_password` (src/models.py line 45): hash the plain
password with a fresh salt; the salt is embedded in the result. -/
def hash_password (salt : String) (plain : String) : BcryptHash :=
  ⟨salt, bcryptKDF salt plain⟩

/-- Embeds `checkpw`: recompute with the embedded salt and compare. -/
def checkpw (plain : String) (stored : BcryptHash) : Bool :=
  bcryptKDF stored.salt plain == stored.digest

lemma bcryptKDF_inj (salt : String) {p q : String}
    (h : bcryptKDF salt q = bcryptKDF salt p) : q = p := by
  have hd := congrArg String.data h
  simp only [bcryptKDF, data_append] at hd
  have := List.append_cancel_left hd
  cases q with
  | mk qd =>
    cases p with
    | mk pd => exact congrArg String.mk this

/-! ## Token Service (src/models.py, User.generate_auth_token / User.check_auth_token)

Modelled from the spec: the PyJWT `encode` and `decode` functions are
library code that is not part of the repository.  Per the spec, a token
carries {sub, iat, exp} signed with HMAC-SHA256 over a process-wide
secret, and verification checks the signature and that the current time
is strictly before expiry, returning the single invalid outcome (not a
thrown fault) on any invalid signature, malformed structure, or expiry. -/

structure TokenPayload where
  sub : Nat
  iat : Nat
  exp : Nat
deriving Repr, DecidableEq

def strHash (s : String) : Nat :=
  s.data.foldl (fun a c => a * 256 + c.toNat + 1) 7

/-- Modelled from the spec: HMAC-SHA256 over the secret, idealized as an
executable keyed function of the payload fields. -/
def hmacModel (secret : String) (sub iat exp : Nat) : Nat :=
  strHash secret + 1000003 * (1 + sub + 1000003 * (iat + 1000003 * exp))

/-- Modelled from the spec: PyJWT `encode` — serialize the payload and a
signature over it into a dot-separated token string. -/
def jwt_encode (secret : String) (p : TokenPayload) : String :=
  natBitString p.sub ++ "." ++ natBitString p.iat ++ "." ++ natBitString p.exp
    ++ "." ++ natBitString (hmacModel secret p.sub p.iat p.exp)

/-- Modelled from the spec: PyJWT `decode` — parse the dot-separated
structure, check the signature, and check that the current time is
strictly before expiry; every failure yields the same `none`. -/
def jwt_decode (secret : String) (now : Nat) (token : String) : Option TokenPayload :=
  match pySplit '.' token with
  | [a, b, c, d] =>
    match parseBinNat a, parseBinNat b, parseBinNat c, parseBinNat d with
    | some sub, some iat, some exp, some sig =>
      if sig = hmacModel secret sub iat exp then
        if now < exp then some ⟨sub, iat, exp⟩ else none
      else none
    | _, _, _, _ => none
  | _ => none

/-- Embeds the payload dictionary built by `User.generate_auth_token`
(src/models.py lines 56-60).  The source calls `datetime.utcnow()` twice,
once for `iat` and once (added to one day) for `exp`; the two reads are
the parameters `t1` and `t2`, in epoch seconds. -/
def auth_token_payload (uid t1 t2 : Nat) : TokenPayload :=
  ⟨uid, t1, t2 + 86400⟩

/-- Embeds `User.generate_auth_token` (src/models.py lines 54-61). -/
def generate_auth_token (secret : String) (uid t1 t2 : Nat) : String :=
  jwt_encode secret (auth_token_payload uid t1 t2)

/-- Embeds `User.check_auth_token` (src/models.py lines 63-71): decode and
return the `sub` claim, or `None` when decoding raises. -/
def check_auth_token (secret : String) (now : Nat) (token : String) : Option Nat :=
  (jwt_decode secret now token).map (fun p => p.sub)

lemma not_beq_dot_of_mem_natBitString {c : Char} {n : Nat}
    (h : c ∈ (natBitString n).data) : ¬(c == '.') := by
  rcases mem_natBitString_data h with rfl | rfl <;> decide

lemma dot_data : (".").data = ['.'] := rfl

lemma pySplit_jwt_encode (secret : String) (p : TokenPayload) :
    pySplit '.' (jwt_encode secret p) =
      [natBitString p.sub, natBitString p.iat, natBitString p.exp,
        natBitString (hmacModel secret p.sub p.iat p.exp)] := by
  have hdata : (jwt_encode secret p).data =
      (natBitString p.sub).data ++ '.' ::
        ((natBitString p.iat).data ++ '.' ::
          ((natBitString p.exp).data ++ '.' ::
            (natBitString (hmacModel secret p.sub p.iat p.exp)).data)) := by
    simp [jwt_encode, data_append, dot_data]
  unfold pySplit
  rw [hdata]
  rw [splitListAux_sep_append '.' _ _ _ (fun c hc => not_beq_dot_of_mem_natBitString hc)]
  rw [splitListAux_sep_append '.' _ _ _ (fun c hc => not_beq_dot_of_mem_natBitString hc)]
  rw [splitListAux_sep_append '.' _ _ _ (fun c hc => not_beq_dot_of_mem_natBitString hc)]
  rw [splitListAux_no_sep '.' _ _ (fun c hc => not_beq_dot_of_mem_natBitString hc)]
  simp [mk_data]

lemma jwt_decode_jwt_encode (secret : String) (now : Nat) (p : TokenPayload) :
    jwt_decode secret now (jwt_encode secret p) =
      if now < p.exp then some p else none := by
  simp [jwt_decode, pySplit_jwt_encode, parseBinNat_natBitString]

/-! ## Data model (src/models.py)

Each entity keeps the object-level fields the handlers read and write.
The database session becomes a record of lists; relationship accessors
become filters over those lists; `db.session.commit` becomes returning
the updated record.  `symptoms` and `activities` are `Option` lists
because `CheckIn.__init__` stores exactly the value it is handed, which
the POST handler passes as `data.get(...)` and may therefore be `None`. -/

structure UserR where
  id : Nat
  name : String
  email : String
  dob : String
  password_hash : BcryptHash
deriving Repr, DecidableEq

/-- Embeds `User.check_password` (src/models.py lines 50-52). -/
def UserR.check_password (u : UserR) (plain : String) : Bool :=
  checkpw plain u.password_hash

structure CheckIn where
  id : Nat
  rating : Int
  date : String
  symptoms : Option (List String)
  activities : Option (List String)
  notes : Option String
  user_id : Nat
deriving Repr, DecidableEq

structure Journal where
  id : Nat
  owner_id : Nat
deriving Repr, DecidableEq

structure JournalPage where
  id : Nat
  journal_id : Nat
  date : String
  body : String
  updated_at : Nat
deriving Repr, DecidableEq

structure DB where
  users : List UserR
  check_ins : List CheckIn
  journals : List Journal
  journal_pages : List JournalPage
deriving Repr, DecidableEq

/-- Partial-update payload for a check-in: the JSON dict handed to
`CheckIn.update`; `none` marks a key absent from the dict. -/
structure CheckInPatch where
  rating : Option Int
  date : Option String
  activities : Option (List String)
  symptoms : Option (List String)
  notes : Option String
deriving Repr, DecidableEq

/-- Embeds `CheckIn.update` (src/models.py lines 109-116): each field is
`new_data.get(key, current)` — present keys overwrite, absent keys keep
the prior value; `user_id` and `id` are never touched. -/
def CheckIn.update (ci : CheckIn) (p : CheckInPatch) : CheckIn :=
  { ci with
    rating := p.rating.getD ci.rating
    date := p.date.getD ci.date
    activities := match p.activities with
      | some a => some a
      | none => ci.activities
    symptoms := match p.symptoms with
      | some s => some s
      | none => ci.symptoms
    notes := match p.notes with
      | some n => some n
      | none => ci.notes }

/-- Partial-update payload for a journal page. -/
structure JournalPagePatch where
  body : Option String
deriving Repr, DecidableEq

/-- Embeds `JournalPage.update` (src/models.py lines 165-167): merge the
body if present and refresh `updated_at` from the clock. -/
def JournalPage.update (pg : JournalPage) (p : JournalPagePatch) (now : Nat) : JournalPage :=
  { pg with body := p.body.getD pg.body, updated_at := now }

structure RatingTotals where
  very_bad : Nat
  bad : Nat
  neutral : Nat
  good : Nat
  very_good : Nat
deriving Repr, DecidableEq

def countRating (db : DB) (uid : Nat) (r : Int) : Nat :=
  (db.check_ins.filter (fun c => c.user_id == uid && c.rating == r)).length

/-- Embeds `CheckIn.get_rating_totals` (src/models.py lines 126-135). -/
def get_rating_totals (db : DB) (uid : Nat) : RatingTotals :=
  ⟨countRating db uid 1, countRating db uid 2, countRating db uid 3,
    countRating db uid 4, countRating db uid 5⟩

/-! ## Date parsing

Modelled from the spec: `datetime.strptime` is library code that is not
part of the repository.  Each parser validates the exact shape of its
format string and represents the parsed datetime by its canonical
string; an input that does not match raises in the source, which the
handlers surface as a fault outcome. -/

def digitVal (a b : Char) : Nat := (a.toNat - 48) * 10 + (b.toNat - 48)

/-- Shape check for the format %Y-%m-%d used at registration. -/
def validYMD (s : String) : Bool :=
  match s.data with
  | [y1, y2, y3, y4, s1, m1, m2, s2, d1, d2] =>
    y1.isDigit && y2.isDigit && y3.isDigit && y4.isDigit &&
    s1 == '-' && s2 == '-' &&
    m1.isDigit && m2.isDigit && d1.isDigit && d2.isDigit &&
    decide (1 ≤ digitVal m1 m2) && decide (digitVal m1 m2 ≤ 12) &&
    decide (1 ≤ digitVal d1 d2) && decide (digitVal d1 d2 ≤ 31)
  | _ => false

/-- Modelled from the spec: `datetime.strptime(s, %Y-%m-%d)`. -/
def strptimeYMD (s : String) : Option String :=
  if validYMD s then some s else none

/-- Shape check for the format %Y-%m-%dT%H:%M used by check-in and
journal-page creation. -/
def validYMDHM (s : String) : Bool :=
  match s.data with
  | [y1, y2, y3, y4, s1, m1, m2, s2, d1, d2, t, h1, h2, c, n1, n2] =>
    y1.isDigit && y2.isDigit && y3.isDigit && y4.isDigit &&
    s1 == '-' && s2 == '-' && t == 'T' && c == ':' &&
    m1.isDigit && m2.isDigit && d1.isDigit && d2.isDigit &&
    h1.isDigit && h2.isDigit && n1.isDigit && n2.isDigit &&
    decide (1 ≤ digitVal m1 m2) && decide (digitVal m1 m2 ≤ 12) &&
    decide (1 ≤ digitVal d1 d2) && decide (digitVal d1 d2 ≤ 31) &&
    decide (digitVal h1 h2 ≤ 23) && decide (digitVal n1 n2 ≤ 59)
  | _ => false

/-- Modelled from the spec: `datetime.strptime(s, %Y-%m-%dT%H:%M)`. -/
def strptimeYMDHM (s : String) : Option String :=
  if validYMDHM s then some s else none

/-! ## Access Guard (src/api/auth.py, login_required) -/

/-- Outcome of a guarded request: either a failure response from the
decorator, or the wrapped handler has run with the resolved user record
bound into the request context. -/
inductive AuthResult (α : Type) where
  | failure (status : Nat) (error : String)
  | success (uid : Nat) (gUser : Option UserR) (value : α)
deriving Repr, DecidableEq

/-- The token substring the decorator extracts from the header value via
`auth_header.split(' ')[1]`. -/
def extractToken (h : String) : String := (pySplit ' ' h).getD 1 ""

/-- Embeds `login_required` (src/api/auth.py lines 25-45): missing
header, wrong scheme, and failed token verification each short-circuit
to a 401; `if not user_id` also rejects the integer zero because zero is
falsy in Python; otherwise the handler runs with `g.user` set to the
user looked up by id (possibly none if that user row is gone). -/
def login_required {α : Type} (secret : String) (now : Nat) (users : List UserR)
    (authHeader : Option String) (handler : Option UserR → α) : AuthResult α :=
  match authHeader with
  | none => .failure 401 "Authorization header is required"
  | some h =>
    if !pyStartsWith h "Bearer " then .failure 401 "Invalid authorization header"
    else
      match check_auth_token secret now (extractToken h) with
      | none => .failure 401 "Invalid token"
      | some uid =>
        if uid = 0 then .failure 401 "Invalid token"
        else
          let gu := users.find? (fun u => u.id == uid)
          .success uid gu (handler gu)

/-! ## Resource Store handlers (src/api/user.py)

Each handler is embedded as a function of the session state, the
request-context user bound by the guard, the path parameters, and the
parsed JSON payload, returning the response and the state after the
request.  A JSON body that is missing or empty is `none` (falsy in
Python); autoincremented primary keys arrive as explicit parameters. -/

/-- Response values: entity bodies, success and error messages with their
HTTP status, or an unhandled Python exception escaping the handler. -/
inductive HResp where
  | checkInJson (status : Nat) (c : CheckIn)
  | pageJson (status : Nat) (p : JournalPage)
  | journalJson (status : Nat) (j : Journal) (pages : List JournalPage)
  | successMsg (status : Nat) (msg : String)
  | errorMsg (status : Nat) (msg : String)
  | fault (msg : String)
deriving Repr, DecidableEq

/-- `CheckIn.query.filter_by(id=check_in_id).first()` — by id only. -/
def find_check_in (db : DB) (cid : Nat) : Option CheckIn :=
  db.check_ins.find? (fun c => c.id == cid)

/-- `JournalPage.query.filter_by(id=page_id).first()` — by id only. -/
def find_journal_page (db : DB) (pid : Nat) : Option JournalPage :=
  db.journal_pages.find? (fun p => p.id == pid)

def replaceFirstBy {α : Type} (hit : α → Bool) (new : α) : List α → List α
  | [] => []
  | x :: rest => if hit x then new :: rest else x :: replaceFirstBy hit new rest

def removeFirstBy {α : Type} (hit : α → Bool) : List α → List α
  | [] => []
  | x :: rest => if hit x then rest else x :: removeFirstBy hit rest

/-- Embeds `get_check_in_by_id` (src/api/user.py lines 132-139). -/
def get_check_in_by_id (db : DB) (gUser : Option UserR) (cid : Nat) : HResp × DB :=
  match find_check_in db cid with
  | none => (.errorMsg 404 "Check-in not found", db)
  | some ci => (.checkInJson 200 ci, db)

/-- Embeds `update_check_in_by_id` (src/api/user.py lines 142-156). -/
def update_check_in_by_id (db : DB) (gUser : Option UserR) (cid : Nat)
    (payload : Option CheckInPatch) : HResp × DB :=
  match payload with
  | none => (.errorMsg 400 "Invalid payload", db)
  | some p =>
    match find_check_in db cid with
    | none => (.errorMsg 404 "Check-in not found", db)
    | some ci =>
      let ci2 := ci.update p
      (.checkInJson 200 ci2,
        { db with check_ins := replaceFirstBy (fun c => c.id == cid) ci2 db.check_ins })

/-- Embeds `delete_check_in_by_id` (src/api/user.py lines 159-168). -/
def delete_check_in_by_id (db : DB) (gUser : Option UserR) (cid : Nat) : HResp × DB :=
  match find_check_in db cid with
  | none => (.errorMsg 404 "Check-in not found", db)
  | some _ =>
    (.successMsg 200 "Check-in deleted",
      { db with check_ins := removeFirstBy (fun c => c.id == cid) db.check_ins })

/-- Creation payload for a check-in: `date` is the raw JSON string (empty
when absent, which is falsy), `rating` is absent or a JSON number. -/
structure CheckInPost where
  date : String
  rating : Option Int
  activities : Option (List String)
  symptoms : Option (List String)
  notes : Option String
deriving Repr, DecidableEq

/-- Embeds `create_check_in` (src/api/user.py lines 107-129).  The falsy
test rejects a missing body, a missing or empty date, and a missing or
zero rating.  The constructor arguments are passed exactly as
`data.get(...)` returns them, so absent `activities` and `symptoms`
reach `CheckIn.__init__` as `None`, which suppresses the empty-list
defaults of the model (an explicitly assigned `None` also suppresses the
column default on insert). -/
def create_check_in (db : DB) (gUser : Option UserR) (nextId : Nat)
    (payload : Option CheckInPost) : HResp × DB :=
  match payload with
  | none => (.errorMsg 400 "Invalid payload", db)
  | some p =>
    if p.date = "" then (.errorMsg 400 "Invalid payload", db)
    else
      match p.rating with
      | none => (.errorMsg 400 "Invalid payload", db)
      | some r =>
        if r = 0 then (.errorMsg 400 "Invalid payload", db)
        else
          match strptimeYMDHM p.date with
          | none => (.fault "ValueError in strptime", db)
          | some d =>
            match gUser with
            | none => (.fault "AttributeError on g.user", db)
            | some u =>
              let ci : CheckIn := ⟨nextId, r, d, p.symptoms, p.activities, p.notes, u.id⟩
              (.checkInJson 201 ci, { db with check_ins := db.check_ins ++ [ci] })

/-- The relationship `user.journal`: every journal row owned by the user. -/
def user_journals (db : DB) (uid : Nat) : List Journal :=
  db.journals.filter (fun j => j.owner_id == uid)

/-- The relationship `journal.pages`. -/
def journal_pages_of (db : DB) (jid : Nat) : List JournalPage :=
  db.journal_pages.filter (fun p => p.journal_id == jid)

/-- Embeds `get_journal` (src/api/user.py lines 174-185): lazily create
the journal when the user has none, then serialize `g.user.journal[0]`. -/
def get_journal (db : DB) (gUser : Option UserR) (nextJid : Nat) : HResp × DB :=
  match gUser with
  | none => (.fault "AttributeError on g.user", db)
  | some u =>
    match user_journals db u.id with
    | [] =>
      let j : Journal := ⟨nextJid, u.id⟩
      let db2 := { db with journals := db.journals ++ [j] }
      match user_journals db2 u.id with
      | [] => (.fault "IndexError on journal", db2)
      | j2 :: _ => (.journalJson 201 j2 (journal_pages_of db2 j2.id), db2)
    | j :: _ => (.journalJson 200 j (journal_pages_of db j.id), db)

/-- Creation payload for a journal page. -/
structure JournalPagePost where
  date : String
  body : String
deriving Repr, DecidableEq

/-- Embeds `create_journal_page` (src/api/user.py lines 188-205): after
the payload check the handler evaluates `g.user.journal[0]` with no
lazy creation, so a user without a journal raises IndexError; otherwise
`Journal.add_page` parses the date, builds the page and commits it. -/
def create_journal_page (db : DB) (gUser : Option UserR) (nextPid : Nat)
    (payload : Option JournalPagePost) (now : Nat) : HResp × DB :=
  match payload with
  | none => (.errorMsg 400 "Invalid payload", db)
  | some p =>
    if p.date = "" ∨ p.body = "" then (.errorMsg 400 "Invalid payload", db)
    else
      match gUser with
      | none => (.fault "AttributeError on g.user", db)
      | some u =>
        match user_journals db u.id with
        | [] => (.fault "IndexError on journal", db)
        | j :: _ =>
          match strptimeYMDHM p.date with
          | none => (.fault "ValueError in strptime", db)
          | some d =>
            let pg : JournalPage := ⟨nextPid, j.id, d, p.body, now⟩
            (.pageJson 201 pg, { db with journal_pages := db.journal_pages ++ [pg] })

/-- Embeds `update_journal_page` (src/api/user.py lines 208-222). -/
def update_journal_page (db : DB) (gUser : Option UserR) (pid : Nat)
    (payload : Option JournalPagePatch) (now : Nat) : HResp × DB :=
  match payload with
  | none => (.errorMsg 400 "Invalid payload", db)
  | some p =>
    match find_journal_page db pid with
    | none => (.errorMsg 404 "Page not found", db)
    | some pg =>
      let pg2 := pg.update p now
      (.pageJson 200 pg2,
        { db with journal_pages := replaceFirstBy (fun q => q.id == pid) pg2 db.journal_pages })

/-- Embeds `delete_journal_pate` (src/api/user.py lines 225-236); the
name keeps the spelling of the source. -/
def delete_journal_pate (db : DB) (gUser : Option UserR) (pid : Nat) : HResp × DB :=
  match find_journal_page db pid with
  | none => (.errorMsg 404 "Page not found", db)
  | some _ =>
    (.successMsg 200 "Page deleted",
      { db with journal_pages := removeFirstBy (fun q => q.id == pid) db.journal_pages })

/-! ## Registration (src/api/auth.py, register) -/

structure RegisterPost where
  name : String
  email : String
  dob : String
  password : String
deriving Repr, DecidableEq

/-- `User.query.filter_by(email=...).first()`. -/
def find_user_by_email (db : DB) (email : String) : Option UserR :=
  db.users.find? (fun u => u.email == email)

/-- Embeds `register` (src/api/auth.py lines 48-73): reject a falsy body
or any falsy required field with 400, reject an already-used email with
400 before anything is written, otherwise parse the date of birth, hash
the password with a fresh salt and append the new user row. -/
def register (db : DB) (salt : String) (nextUid : Nat)
    (payload : Option RegisterPost) : HResp × DB :=
  match payload with
  | none => (.errorMsg 400 "Invalid payload", db)
  | some p =>
    if p.email = "" ∨ p.password = "" ∨ p.name = "" ∨ p.dob = "" then
      (.errorMsg 400 "Invalid payload", db)
    else
      match find_user_by_email db p.email with
      | some _ => (.errorMsg 400 "User already exists", db)
      | none =>
        match strptimeYMD p.dob with
        | none => (.fault "ValueError in strptime", db)
        | some d =>
          let u : UserR := ⟨nextUid, p.name, p.email, d, hash_password salt p.password⟩
          (.successMsg 201 "User registered", { db with users := db.users ++ [u] })


/-! ## Concrete fixtures used by witnesses and counterexamples -/

def user1 : UserR := ⟨1, "A", "a@x.com", "1990-01-01", hash_password "saltA" "p1"⟩

def user2 : UserR := ⟨2, "B", "b@x.com", "1991-02-03", hash_password "saltB" "p2"⟩

def ci1 : CheckIn := ⟨1, 3, "2024-01-02T10:00", some [], some [], none, 1⟩

def j1 : Journal := ⟨1, 1⟩

def pg1 : JournalPage := ⟨1, 1, "2024-01-02T10:00", "first page", 0⟩

def db1 : DB := ⟨[user1, user2], [ci1], [j1], [pg1]⟩

def db0 : DB := ⟨[user1], [], [], []⟩

/-! ## Claims -/

/-- Claim C1: the by-id operations on check-ins and journal pages (GET,
PUT and DELETE of a check-in by id; PUT and DELETE of a journal page by
id) look the entity up by id only and never consult the authenticated
identity: the outcome is identical for every requester, and on an
existing entity the fetch returns it and update and delete succeed,
whoever owns it. -/
theorem claim_C1 (db : DB) (u1 u2 : Option UserR) (cid pid : Nat)
    (pc : Option CheckInPatch) (pj : Option JournalPagePatch) (now : Nat) :
    (get_check_in_by_id db u1 cid = get_check_in_by_id db u2 cid
      ∧ update_check_in_by_id db u1 cid pc = update_check_in_by_id db u2 cid pc
      ∧ delete_check_in_by_id db u1 cid = delete_check_in_by_id db u2 cid
      ∧ update_journal_page db u1 pid pj now = update_journal_page db u2 pid pj now
      ∧ delete_journal_pate db u1 pid = delete_journal_pate db u2 pid)
    ∧ (∀ ci, find_check_in db cid = some ci →
        (get_check_in_by_id db u1 cid).1 = .checkInJson 200 ci
        ∧ (∀ p, (update_check_in_by_id db u1 cid (some p)).1 = .checkInJson 200 (ci.update p))
        ∧ (delete_check_in_by_id db u1 cid).1 = .successMsg 200 "Check-in deleted")
    ∧ (∀ pg, find_journal_page db pid = some pg →
        (∀ p, (update_journal_page db u1 pid (some p) now).1 = .pageJson 200 (pg.update p now))
        ∧ (delete_journal_pate db u1 pid).1 = .successMsg 200 "Page deleted") := by
  refine ⟨⟨rfl, rfl, rfl, rfl, rfl⟩, ?_, ?_⟩
  · intro ci hci
    exact ⟨by simp [get_check_in_by_id, hci],
      fun p => by simp [update_check_in_by_id, hci],
      by simp [delete_check_in_by_id, hci]⟩
  · intro pg hpg
    exact ⟨fun p => by simp [update_journal_page, hpg],
      by simp [delete_journal_pate, hpg]⟩

/-- Claim C1, witness: in `db1` the check-in `ci1` and the page `pg1`
belong to `user1`, yet the requester `user2` fetches, updates and
deletes them exactly as the owner would. -/
theorem claim_C1_witness :
    ci1.user_id = user1.id ∧ user1 ≠ user2
    ∧ (get_check_in_by_id db1 (some user2) 1).1 = .checkInJson 200 ci1
    ∧ (update_check_in_by_id db1 (some user2) 1 (some ⟨none, none, none, none, some "x"⟩)).1
        = .checkInJson 200 (ci1.update ⟨none, none, none, none, some "x"⟩)
    ∧ (delete_check_in_by_id db1 (some user2) 1).1 = .successMsg 200 "Check-in deleted"
    ∧ (update_journal_page db1 (some user2) 1 (some ⟨some "edited"⟩) 5).1
        = .pageJson 200 (pg1.update ⟨some "edited"⟩ 5)
    ∧ (delete_journal_pate db1 (some user2) 1).1 = .successMsg 200 "Page deleted" := by
  have h := claim_C1 db1 (some user2) (some user1) 1 1 none none 5
  have hci : find_check_in db1 1 = some ci1 := by decide
  have hpg : find_journal_page db1 1 = some pg1 := by decide
  obtain ⟨-, hc, hp⟩ := h
  obtain ⟨hget, hupd, hdel⟩ := hc ci1 hci
  obtain ⟨hpupd, hpdel⟩ := hp pg1 hpg
  exact ⟨by decide, by decide, hget, hupd _, hdel, hpupd _, hpdel⟩

/-- Claim C2: verification succeeds exactly on the hashed plaintext — for
a user whose stored hash was produced by `hash_password p`, checking `p`
returns true and checking any other plaintext returns false. -/
theorem claim_C2 (u : UserR) (salt p q : String)
    (hstored : u.password_hash = hash_password salt p) (hne : q ≠ p) :
    u.check_password p = true ∧ u.check_password q = false := by
  constructor
  · simp [UserR.check_password, checkpw, hstored, hash_password]
  · simp only [UserR.check_password, checkpw, hstored, hash_password]
    simp only [beq_eq_false_iff_ne, ne_eq]
    exact fun hcollide => hne (bcryptKDF_inj salt hcollide)

/-- Claim C2, witness: `user1` stores the hash of the password p1; the
check accepts p1 and rejects p2. -/
theorem claim_C2_witness :
    user1.check_password "p1" = true ∧ user1.check_password "p2" = false :=
  claim_C2 user1 "saltA" "p1" "p2" rfl (by decide)

/-- Claim C3: a token issued by `generate_auth_token` for user id `uid`
verifies to `some uid` at every time strictly before its expiry
(`t2 + 86400`, where `t2` is the second clock read), verifies to `none`
at and after expiry, and every malformed or tampered token string also
yields the same `none` outcome of the total function `check_auth_token`
(the source catches every decoding exception and returns None). -/
theorem claim_C3 (secret : String) (uid t1 t2 now : Nat) :
    (now < t2 + 86400 →
      check_auth_token secret now (generate_auth_token secret uid t1 t2) = some uid)
    ∧ (t2 + 86400 ≤ now →
      check_auth_token secret now (generate_auth_token secret uid t1 t2) = none)
    ∧ (∀ s : String, (∀ a b c d : String, pySplit '.' s ≠ [a, b, c, d]) →
      check_auth_token secret now s = none)
    ∧ (∀ s a b c d, pySplit '.' s = [a, b, c, d] →
      parseBinNat a = none ∨ parseBinNat b = none ∨ parseBinNat c = none ∨
        parseBinNat d = none →
      check_auth_token secret now s = none)
    ∧ (∀ s a b c d sub iat exp sig, pySplit '.' s = [a, b, c, d] →
      parseBinNat a = some sub → parseBinNat b = some iat → parseBinNat c = some exp →
      parseBinNat d = some sig → sig ≠ hmacModel secret sub iat exp →
      check_auth_token secret now s = none) := by
  refine ⟨?_, ?_, ?_, ?_, ?_⟩
  · intro h
    simp [check_auth_token, generate_auth_token, auth_token_payload, jwt_decode_jwt_encode, h]
  · intro h
    simp [check_auth_token, generate_auth_token, auth_token_payload, jwt_decode_jwt_encode,
      Nat.not_lt.mpr h]
  · intro s h
    unfold check_auth_token jwt_decode
    rcases hsp : pySplit '.' s with - | ⟨a, - | ⟨b, - | ⟨c, - | ⟨d, - | ⟨e, es⟩⟩⟩⟩⟩
    · simp
    · simp
    · simp
    · simp
    · exact absurd hsp (h a b c d)
    · simp
  · intro s a b c d hsp hnone
    unfold check_auth_token jwt_decode
    rw [hsp]
    rcases ha : parseBinNat a with - | sub <;>
      rcases hb : parseBinNat b with - | iat <;>
        rcases hc : parseBinNat c with - | exp <;>
          rcases hd : parseBinNat d with - | sig <;>
            simp_all
  · intro s a b c d sub iat exp sig hsp ha hb hc hd hsig
    unfold check_auth_token jwt_decode
    rw [hsp]
    simp [ha, hb, hc, hd, hsig]

/-- Claim C3, witness: a token issued for user 7 at time 50 verifies to
user 7 at time 51, is invalid at its expiry instant 86450, and a
dot-free garbage string is likewise invalid. -/
theorem claim_C3_witness :
    check_auth_token "dev" 51 (generate_auth_token "dev" 7 50 50) = some 7
    ∧ check_auth_token "dev" 86450 (generate_auth_token "dev" 7 50 50) = none
    ∧ check_auth_token "dev" 51 "garbage" = none := by
  refine ⟨(claim_C3 "dev" 7 50 50 51).1 (by omega),
    (claim_C3 "dev" 7 50 50 86450).2.1 (by omega),
    (claim_C3 "dev" 7 50 50 51).2.2.1 "garbage" ?_⟩
  intro a b c d hcontra
  have h1 : pySplit '.' "garbage" = ["garbage"] := by decide
  rw [h1] at hcontra
  simp at hcontra

/-- Claim C4, counterexample: the claim says that a carried token which
passes verification always reaches the handler.  With the process secret
of the source configuration, a signed token whose subject is 0 verifies
(`check_auth_token` returns `some 0`), yet the guard answers 401 Invalid
token, because `if not user_id` in the source also rejects the falsy
integer zero.  The handler does not run. -/
theorem claim_C4_counterexample :
    check_auth_token "dev" 0 (extractToken ("Bearer " ++ jwt_encode "dev" ⟨0, 0, 86400⟩))
      = some 0
    ∧ login_required "dev" 0 [user1]
        (some ("Bearer " ++ jwt_encode "dev" ⟨0, 0, 86400⟩)) (fun u => u.isSome)
      = .failure 401 "Invalid token" := by decide

/-- Claim C4 (amended): the guard produces exactly the claimed outcomes
in order — 401 for a missing header, 401 for a non-Bearer scheme, 401
Invalid token when the carried token fails verification OR verifies to
the falsy subject zero; in every remaining case the handler runs with
the user record resolved from the token subject bound into the request
context. -/
theorem claim_C4 {α : Type} (secret : String) (now : Nat) (users : List UserR)
    (handler : Option UserR → α) (authHeader : Option String) :
    (authHeader = none →
      login_required secret now users authHeader handler =
        .failure 401 "Authorization header is required")
    ∧ (∀ h, authHeader = some h → pyStartsWith h "Bearer " = false →
      login_required secret now users authHeader handler =
        .failure 401 "Invalid authorization header")
    ∧ (∀ h, authHeader = some h → pyStartsWith h "Bearer " = true →
      check_auth_token secret now (extractToken h) = none →
      login_required secret now users authHeader handler = .failure 401 "Invalid token")
    ∧ (∀ h, authHeader = some h → pyStartsWith h "Bearer " = true →
      check_auth_token secret now (extractToken h) = some 0 →
      login_required secret now users authHeader handler = .failure 401 "Invalid token")
    ∧ (∀ h uid, authHeader = some h → pyStartsWith h "Bearer " = true →
      check_auth_token secret now (extractToken h) = some uid → uid ≠ 0 →
      login_required secret now users authHeader handler =
        .success uid (users.find? (fun u => u.id == uid))
          (handler (users.find? (fun u => u.id == uid)))) := by
  refine ⟨?_, ?_, ?_, ?_, ?_⟩
  · intro h
    subst h
    rfl
  · intro h hh hscheme
    subst hh
    simp [login_required, hscheme]
  · intro h hh hscheme htok
    subst hh
    simp [login_required, hscheme, htok]
  · intro h hh hscheme htok
    subst hh
    simp [login_required, hscheme, htok]
  · intro h uid hh hscheme htok huid
    subst hh
    simp [login_required, hscheme, htok, huid]

/-- Claim C4, witness: the four amended outcomes at concrete requests —
missing header, Basic scheme, an unverifiable token, and a valid token
for user 1 that reaches the handler with user 1 bound. -/
theorem claim_C4_witness :
    login_required "dev" 0 [user1] none (fun u => u.isSome)
      = .failure 401 "Authorization header is required"
    ∧ login_required "dev" 0 [user1] (some "Basic xyz") (fun u => u.isSome)
      = .failure 401 "Invalid authorization header"
    ∧ login_required "dev" 0 [user1] (some "Bearer xyz") (fun u => u.isSome)
      = .failure 401 "Invalid token"
    ∧ login_required "dev" 0 [user1]
        (some ("Bearer " ++ generate_auth_token "dev" 1 0 0)) (fun u => u.isSome)
      = .success 1 (some user1) true := by
  have h1 := (claim_C4 "dev" 0 [user1] (fun u => u.isSome) none).1 rfl
  have h2 := (claim_C4 "dev" 0 [user1] (fun u => u.isSome) (some "Basic xyz")).2.1
    "Basic xyz" rfl (by decide)
  have h3 := (claim_C4 "dev" 0 [user1] (fun u => u.isSome) (some "Bearer xyz")).2.2.1
    "Bearer xyz" rfl (by decide) (by decide)
  have h4 := (claim_C4 "dev" 0 [user1] (fun u => u.isSome)
      (some ("Bearer " ++ generate_auth_token "dev" 1 0 0))).2.2.2.2
    ("Bearer " ++ generate_auth_token "dev" 1 0 0) 1 rfl (by decide) (by decide) (by decide)
  exact ⟨h1, h2, h3, h4.trans (by decide)⟩

/-- Claim C5: when a user with the requested email already exists, a
valid second registration request for that email is answered with the
client error User already exists and the store is returned unchanged, so
every existing record (in particular the first user with that email) is
exactly as before. -/
theorem claim_C5 (db : DB) (salt : String) (nextUid : Nat) (p : RegisterPost)
    (hname : p.name ≠ "") (hemail : p.email ≠ "") (hdob : p.dob ≠ "")
    (hpw : p.password ≠ "") (hex : ∃ u ∈ db.users, u.email = p.email) :
    register db salt nextUid (some p) = (.errorMsg 400 "User already exists", db) := by
  obtain ⟨w, hw, he⟩ := hex
  have hfind : (find_user_by_email db p.email).isSome := by
    unfold find_user_by_email
    rw [List.find?_isSome]
    exact ⟨w, hw, by simp [he]⟩
  obtain ⟨u0, hu0⟩ := Option.isSome_iff_exists.mp hfind
  simp [register, hname, hemail, hdob, hpw, hu0]

/-- Claim C5, witness: registering a second user with the email of
`user1` in `db1` yields the conflict error and leaves `db1` unchanged. -/
theorem claim_C5_witness :
    register db1 "saltC" 3 (some ⟨"C", "a@x.com", "1992-03-04", "pw3"⟩)
      = (.errorMsg 400 "User already exists", db1) :=
  claim_C5 db1 "saltC" 3 ⟨"C", "a@x.com", "1992-03-04", "pw3"⟩
    (by decide) (by decide) (by decide) (by decide) ⟨user1, by decide, by decide⟩

/-- Claim C6: a partial update carrying only a notes value rewrites notes
and leaves rating, date, activities, symptoms, user id (and id)
untouched; in general every field present in the payload overwrites the
stored value and every absent field keeps its prior value, both at the
model level and through the PUT handler on an existing check-in. -/
theorem claim_C6 (ci : CheckIn) (x : String) (p : CheckInPatch) :
    ((ci.update ⟨none, none, none, none, some x⟩).notes = some x
      ∧ (ci.update ⟨none, none, none, none, some x⟩).rating = ci.rating
      ∧ (ci.update ⟨none, none, none, none, some x⟩).date = ci.date
      ∧ (ci.update ⟨none, none, none, none, some x⟩).activities = ci.activities
      ∧ (ci.update ⟨none, none, none, none, some x⟩).symptoms = ci.symptoms
      ∧ (ci.update ⟨none, none, none, none, some x⟩).user_id = ci.user_id
      ∧ (ci.update ⟨none, none, none, none, some x⟩).id = ci.id)
    ∧ ((p.rating = none → (ci.update p).rating = ci.rating)
      ∧ (∀ r, p.rating = some r → (ci.update p).rating = r)
      ∧ (p.date = none → (ci.update p).date = ci.date)
      ∧ (∀ d, p.date = some d → (ci.update p).date = d)
      ∧ (p.activities = none → (ci.update p).activities = ci.activities)
      ∧ (∀ a, p.activities = some a → (ci.update p).activities = some a)
      ∧ (p.symptoms = none → (ci.update p).symptoms = ci.symptoms)
      ∧ (∀ s, p.symptoms = some s → (ci.update p).symptoms = some s)
      ∧ (p.notes = none → (ci.update p).notes = ci.notes)
      ∧ (∀ n, p.notes = some n → (ci.update p).notes = some n)
      ∧ (ci.update p).user_id = ci.user_id
      ∧ (ci.update p).id = ci.id)
    ∧ (∀ db u cid, find_check_in db cid = some ci →
      (update_check_in_by_id db u cid (some ⟨none, none, none, none, some x⟩)).1
        = .checkInJson 200 (ci.update ⟨none, none, none, none, some x⟩)) := by
  refine ⟨⟨rfl, rfl, rfl, rfl, rfl, rfl, rfl⟩, ?_, ?_⟩
  · exact ⟨fun h => by simp [CheckIn.update, h],
      fun r h => by simp [CheckIn.update, h],
      fun h => by simp [CheckIn.update, h],
      fun d h => by simp [CheckIn.update, h],
      fun h => by simp [CheckIn.update, h],
      fun a h => by simp [CheckIn.update, h],
      fun h => by simp [CheckIn.update, h],
      fun s h => by simp [CheckIn.update, h],
      fun h => by simp [CheckIn.update, h],
      fun n h => by simp [CheckIn.update, h],
      rfl, rfl⟩
  · intro db u cid hci
    simp [update_check_in_by_id, hci]

/-- Claim C6, witness: updating `ci1` with only a notes value changes
notes alone, and a rating-only patch overwrites exactly the rating. -/
theorem claim_C6_witness :
    (ci1.update ⟨none, none, none, none, some "x"⟩).notes = some "x"
    ∧ (ci1.update ⟨none, none, none, none, some "x"⟩).rating = ci1.rating
    ∧ (ci1.update ⟨some 4, none, none, none, none⟩).rating = 4
    ∧ (update_check_in_by_id db1 (some user1) 1 (some ⟨none, none, none, none, some "x"⟩)).1
      = .checkInJson 200 (ci1.update ⟨none, none, none, none, some "x"⟩) := by
  have h := claim_C6 ci1 "x" ⟨some 4, none, none, none, none⟩
  exact ⟨h.1.1, h.1.2.1, h.2.1.2.1 4 rfl, h.2.2 db1 (some user1) 1 (by decide)⟩

def c7_input : CheckInPost := ⟨"2024-01-02T10:00", some 3, none, none, none⟩

def c7_db : DB := (create_check_in db0 (some user1) 1 (some c7_input)).2

/-- Claim C7: the claim states that creating a check-in with rating 3 and
no optional fields stores empty lists for activities and symptoms.  The
handler passes `data.get` results straight to the constructor, so both
fields are stored as `None` (serialized null), not as empty lists: the
code contradicts the empty-list defaults declared by its own model.  The
rating-totals half of the claim does hold: neutral is 1, the rest 0. -/
theorem claim_C7 :
    (create_check_in db0 (some user1) 1 (some c7_input)).1
      = .checkInJson 201 ⟨1, 3, "2024-01-02T10:00", none, none, none, 1⟩
    ∧ c7_db.check_ins = [⟨1, 3, "2024-01-02T10:00", none, none, none, 1⟩]
    ∧ (∀ ci ∈ c7_db.check_ins, ci.symptoms = none ∧ ci.activities = none
        ∧ ci.symptoms ≠ some [] ∧ ci.activities ≠ some [])
    ∧ get_rating_totals c7_db 1 = ⟨0, 0, 1, 0, 0⟩ := by decide

/-- Claim C8, counterexample: create accepts rating 6 — outside [1,5] —
and stores it unchanged, and update accepts rating 99, so the interface
does not restrict ratings to the claimed range. -/
theorem claim_C8_counterexample :
    (create_check_in db0 (some user1) 1
        (some ⟨"2024-01-02T10:00", some 6, none, none, none⟩)).1
      = .checkInJson 201 ⟨1, 6, "2024-01-02T10:00", none, none, none, 1⟩
    ∧ ¬(1 ≤ (6 : Int) ∧ (6 : Int) ≤ 5)
    ∧ (ci1.update ⟨some 99, none, none, none, none⟩).rating = 99
    ∧ ¬(1 ≤ (99 : Int) ∧ (99 : Int) ≤ 5) := by decide

/-- Claim C8 (amended): creation only requires the rating to be present
and truthy — rating 0 is rejected as an invalid payload because zero is
falsy, while every other integer rating, inside the range [1,5] or not,
is accepted and stored unchanged; update overwrites the rating with any
provided value.  Neither operation enforces the range [1,5]. -/
theorem claim_C8 (db : DB) (u : UserR) (nextId : Nat) (d : String) (r : Int)
    (hd : validYMDHM d = true) (hr : r ≠ 0) (ci : CheckIn) (r2 : Int) :
    (create_check_in db (some u) nextId (some ⟨d, some r, none, none, none⟩)).1
      = .checkInJson 201 ⟨nextId, r, d, none, none, none, u.id⟩
    ∧ (create_check_in db (some u) nextId (some ⟨d, some 0, none, none, none⟩)).1
      = .errorMsg 400 "Invalid payload"
    ∧ (ci.update ⟨some r2, none, none, none, none⟩).rating = r2 := by
  have hde : d ≠ "" := by
    intro h
    rw [h] at hd
    simp [validYMDHM] at hd
  refine ⟨?_, ?_, rfl⟩
  · simp [create_check_in, hde, hr, strptimeYMDHM, hd]
  · simp [create_check_in, hde]

/-- Claim C8, witness: rating -7 is accepted and stored, rating 0 is
rejected as an invalid payload, and update sets rating 42. -/
theorem claim_C8_witness :
    (create_check_in db0 (some user1) 1
        (some ⟨"2024-01-02T10:00", some (-7), none, none, none⟩)).1
      = .checkInJson 201 ⟨1, -7, "2024-01-02T10:00", none, none, none, 1⟩
    ∧ (create_check_in db0 (some user1) 1
        (some ⟨"2024-01-02T10:00", some 0, none, none, none⟩)).1
      = .errorMsg 400 "Invalid payload"
    ∧ (ci1.update ⟨some 42, none, none, none, none⟩).rating = 42 := by
  have h := claim_C8 db0 user1 1 "2024-01-02T10:00" (-7) (by decide) (by decide) ci1 42
  exact ⟨h.1.trans (by decide), h.2.1, h.2.2⟩

/-- Claim C9, counterexample: `generate_auth_token` reads the clock twice
(`iat` from the first read, `exp` from the second read plus one day), so
when the clock advances from second 0 to second 1 between the reads the
issued payload has exp 86401 with iat 0, and exp = iat + 86400 fails. -/
theorem claim_C9_counterexample :
    jwt_decode "dev" 0 (generate_auth_token "dev" 1 0 1) = some ⟨1, 0, 86401⟩
    ∧ (auth_token_payload 1 0 1).exp ≠ (auth_token_payload 1 0 1).iat + 86400 := by decide

/-- Claim C9 (amended): the issued payload has iat equal to the first
clock read and exp equal to the second clock read plus 86400 seconds, so
exp = iat + 86400 holds exactly when the two utcnow reads fall in the
same epoch second. -/
theorem claim_C9 (uid t1 t2 : Nat) :
    (auth_token_payload uid t1 t2).iat = t1
    ∧ (auth_token_payload uid t1 t2).exp = t2 + 86400
    ∧ (t1 = t2 →
      (auth_token_payload uid t1 t2).exp = (auth_token_payload uid t1 t2).iat + 86400) := by
  refine ⟨rfl, rfl, ?_⟩
  intro h
  simp [auth_token_payload, h]

/-- Claim C9, witness: with both clock reads at second 5 the payload
satisfies exp = iat + 86400. -/
theorem claim_C9_witness :
    (auth_token_payload 1 5 5).exp = (auth_token_payload 1 5 5).iat + 86400 :=
  (claim_C9 1 5 5).2.2 rfl

/-- Claim C10, counterexample: for a user with no journal, creating a
journal page with a valid {date, body} payload does not lazily create
the journal — `g.user.journal[0]` raises IndexError, an unhandled
fault, contradicting the claim that any first access completes without
one. -/
theorem claim_C10_counterexample :
    user_journals db0 user1.id = []
    ∧ (create_journal_page db0 (some user1) 1
        (some ⟨"2024-01-02T10:00", "hello"⟩) 0).1 = .fault "IndexError on journal" := by decide

/-- Claim C10 (amended): only the GET journal endpoint lazily creates the
journal on first access and completes without fault; POST of a journal
page performs no lazy creation and faults with IndexError when the user
has no journal, while it succeeds without fault whenever a journal
exists — in particular right after a GET has created it. -/
theorem claim_C10 (db : DB) (u : UserR) (njid npid now : Nat) (p : JournalPagePost)
    (hdate : validYMDHM p.date = true) (hbody : p.body ≠ "") :
    (user_journals db u.id = [] →
      (get_journal db (some u) njid).1
        = .journalJson 201 ⟨njid, u.id⟩
            (journal_pages_of { db with journals := db.journals ++ [⟨njid, u.id⟩] } njid)
      ∧ (get_journal db (some u) njid).2
        = { db with journals := db.journals ++ [⟨njid, u.id⟩] }
      ∧ (create_journal_page db (some u) npid (some p) now).1 = .fault "IndexError on journal")
    ∧ (∀ j rest, user_journals db u.id = j :: rest →
      (create_journal_page db (some u) npid (some p) now).1
        = .pageJson 201 ⟨npid, j.id, p.date, p.body, now⟩)
    ∧ (user_journals db u.id = [] →
      (create_journal_page ((get_journal db (some u) njid).2) (some u) npid (some p) now).1
        = .pageJson 201 ⟨npid, njid, p.date, p.body, now⟩) := by
  have hpd : p.date ≠ "" := by
    intro h
    rw [h] at hdate
    simp [validYMDHM] at hdate
  refine ⟨?_, ?_, ?_⟩
  · intro hnoj
    have hdb2 : user_journals
        { db with journals := db.journals ++ [(⟨njid, u.id⟩ : Journal)] } u.id
        = [⟨njid, u.id⟩] := by
      unfold user_journals at hnoj ⊢
      simp only [List.filter_append, hnoj, List.nil_append]
      simp
    refine ⟨?_, ?_, ?_⟩
    · simp [get_journal, hnoj, hdb2]
    · simp [get_journal, hnoj, hdb2]
    · simp [create_journal_page, hpd, hbody, hnoj]
  · intro j rest hsome
    simp [create_journal_page, hpd, hbody, hsome, strptimeYMDHM, hdate]
  · intro hnoj
    have hdb2 : user_journals
        { db with journals := db.journals ++ [(⟨njid, u.id⟩ : Journal)] } u.id
        = [⟨njid, u.id⟩] := by
      unfold user_journals at hnoj ⊢
      simp only [List.filter_append, hnoj, List.nil_append]
      simp
    have hget2 : (get_journal db (some u) njid).2
        = { db with journals := db.journals ++ [(⟨njid, u.id⟩ : Journal)] } := by
      simp [get_journal, hnoj, hdb2]
    rw [hget2]
    simp [create_journal_page, hpd, hbody, hdb2, strptimeYMDHM, hdate]

/-- Claim C10, witness: in a store where user 1 has no journal, GET
creates and returns the journal without fault, a direct page POST
faults, and a page POST after the GET succeeds. -/
theorem claim_C10_witness :
    (get_journal db0 (some user1) 1).1 = .journalJson 201 ⟨1, 1⟩ []
    ∧ (create_journal_page db0 (some user1) 1 (some ⟨"2024-01-02T10:00", "hi"⟩) 0).1
      = .fault "IndexError on journal"
    ∧ (create_journal_page ((get_journal db0 (some user1) 1).2) (some user1) 1
        (some ⟨"2024-01-02T10:00", "hi"⟩) 0).1
      = .pageJson 201 ⟨1, 1, "2024-01-02T10:00", "hi", 0⟩ := by
  have h := claim_C10 db0 user1 1 1 0 ⟨"2024-01-02T10:00", "hi"⟩ (by decide) (by decide)
  have h1 := h.1 (by decide)
  exact ⟨h1.1.trans (by decide), h1.2.2, h.2.2 (by decide)⟩
